import Mathlib

/-!
Verification of the Timeline Compositing and Export Engine of a two-track
video editor (React/TypeScript).  The definitions below are a shallow
embedding of the code:

* types.ts                  → the data model structures,
* App.tsx                   → the timeline time mapper (totalDuration,
                              transitionDuration, transitionStartTime), the
                              editor-state operations (handleSetTransition,
                              handleAddClip, ...) and the export drawFrame
                              pipeline,
* components/VideoPlayer.tsx → the preview drawFrame pipeline, the overlay
                              animator getOverlayRenderState, the chroma key
                              and the seek-time computation.

Times, percentages and color channels are modelled as exact rationals (the
source uses JS doubles); the chroma-key distance, which takes a real square
root, is modelled over the reals.  Per-pixel sampling of video/overlay
content (drawImage, CSS filters, text rasterization) is abstracted into a
RenderBackend record of pixel-producer functions; the compositing structure
(draw order, alpha blending, clipping rectangles, branch conditions) is
embedded faithfully from the two drawFrame implementations.
-/

namespace VideoApp

/-- Linear interpolation, from the identical helper in App.tsx and
VideoPlayer.tsx: a + (b - a) * t. -/
def lerp (a b t : ℚ) : ℚ := a + (b - a) * t

/-- AnimationInType from types.ts. -/
inductive AnimationIn where
  | none | fadeIn | slideInLeft | slideInRight | slideInTop | slideInBottom | slideInCenter
deriving DecidableEq, Repr

/-- AnimationOutType from types.ts. -/
inductive AnimationOut where
  | none | fadeOut | slideOutLeft | slideOutRight | slideOutTop | slideOutBottom | slideOutCenter
deriving DecidableEq, Repr

/-- Mask.shape from types.ts. -/
inductive MaskShape where
  | none | circle | rectangle | customSvg
deriving DecidableEq, Repr

/-- Mask from types.ts.  customSvg holds the SVG file content. -/
structure Mask where
  shape : MaskShape
  cornerRadius : ℚ
  feather : ℚ
  customSvg : Option String
deriving DecidableEq, Repr

/-- ChromaKeySettings from types.ts.  color is the hex string of the source;
the per-pixel keying function below receives the parsed RGB components, as
the code does after hexToRgb. -/
structure ChromaKeySettings where
  enabled : Bool
  color : String
  similarity : ℚ
deriving DecidableEq, Repr

/-- ColorGradingSettings from types.ts. -/
structure ColorGradingSettings where
  brightness : ℚ
  saturation : ℚ
  hue : ℚ
deriving DecidableEq, Repr

/-- Transform from types.ts (scale, pan x %, pan y %). -/
structure Transform where
  scale : ℚ
  x : ℚ
  y : ℚ
deriving DecidableEq, Repr

/-- Clip from types.ts.  The File handle is omitted (opaque to the engine);
url and thumbnailUrl are kept as strings. -/
structure Clip where
  id : String
  url : String
  duration : ℚ
  thumbnailUrl : String
  trimStart : ℚ
  trimEnd : ℚ
  startTransform : Transform
  endTransform : Transform
  chromaKey : ChromaKeySettings
  colorGrading : ColorGradingSettings
  blur : ℚ
  isReversed : Bool
deriving DecidableEq, Repr

/-- Transition from types.ts. -/
inductive TransitionType where
  | none | crossfade | wipeLeft | wipeRight | wipeUp | wipeDown
deriving DecidableEq, Repr

/-- Transition record from types.ts. -/
structure Transition where
  type : TransitionType
  duration : ℚ
deriving DecidableEq, Repr

/-- TextOverlay from types.ts. -/
structure TextOverlay where
  id : String
  text : String
  startTime : ℚ
  endTime : ℚ
  top : ℚ
  left : ℚ
  color : String
  fontSize : ℚ
  animationIn : AnimationIn
  animationOut : AnimationOut
  zIndex : ℤ
  mask : Mask
deriving DecidableEq, Repr

/-- ImageOverlay from types.ts. -/
structure ImageOverlay where
  id : String
  src : String
  startTime : ℚ
  endTime : ℚ
  width : ℚ
  top : ℚ
  left : ℚ
  animationIn : AnimationIn
  animationOut : AnimationOut
  zIndex : ℤ
  mask : Mask
  chromaKey : ChromaKeySettings
deriving DecidableEq, Repr

/-- The TextOverlay | ImageOverlay union used by getOverlayRenderState and
the overlay drawing loops. -/
inductive Overlay where
  | text (o : TextOverlay)
  | image (o : ImageOverlay)
deriving DecidableEq, Repr

def Overlay.startTime : Overlay → ℚ
  | .text o => o.startTime
  | .image o => o.startTime

def Overlay.endTime : Overlay → ℚ
  | .text o => o.endTime
  | .image o => o.endTime

def Overlay.animationIn : Overlay → AnimationIn
  | .text o => o.animationIn
  | .image o => o.animationIn

def Overlay.animationOut : Overlay → AnimationOut
  | .text o => o.animationOut
  | .image o => o.animationOut

def Overlay.zIndex : Overlay → ℤ
  | .text o => o.zIndex
  | .image o => o.zIndex

def Overlay.mask : Overlay → Mask
  | .text o => o.mask
  | .image o => o.mask

/-- Filter / Effect entries from types.ts (name plus CSS filter value). -/
structure FilterOption where
  name : String
  value : String
deriving DecidableEq, Repr

/-- Crop from types.ts (percentages of the frame). -/
structure Crop where
  x : ℚ
  y : ℚ
  width : ℚ
  height : ℚ
deriving DecidableEq, Repr

/-- EditorState from hooks/useHistory.ts. -/
structure EditorState where
  clips : List Clip
  transition : Transition
  textOverlays : List TextOverlay
  imageOverlays : List ImageOverlay
  selectedFilter : FilterOption
  selectedEffect : FilterOption
  crop : Crop
  volume : ℚ
  playbackSpeed : ℚ
deriving DecidableEq, Repr

/-! ## Timeline time mapper (App.tsx lines 74-81, 819) -/

/-- clips[0] in App.tsx. -/
def clipA (s : EditorState) : Option Clip := s.clips[0]?

/-- clips[1] in App.tsx. -/
def clipB (s : EditorState) : Option Clip := s.clips[1]?

/-- getClipTrimmedDuration from App.tsx: clip ? clip.trimEnd - clip.trimStart : 0. -/
def getClipTrimmedDuration : Option Clip → ℚ
  | some clip => clip.trimEnd - clip.trimStart
  | none => 0

/-- durationA from App.tsx. -/
def durationA (s : EditorState) : ℚ := getClipTrimmedDuration (clipA s)

/-- durationB from App.tsx. -/
def durationB (s : EditorState) : ℚ := getClipTrimmedDuration (clipB s)

/-- transitionDuration from App.tsx:
transition.type !== none && clipA && clipB ? transition.duration : 0. -/
def transitionDuration (s : EditorState) : ℚ :=
  if s.transition.type ≠ TransitionType.none ∧ (clipA s).isSome ∧ (clipB s).isSome then
    s.transition.duration
  else 0

/-- totalDuration from App.tsx:
Math.max(0, durationA + durationB - transitionDuration). -/
def totalDuration (s : EditorState) : ℚ :=
  max 0 (durationA s + durationB s - transitionDuration s)

/-- transitionStartTime from the export drawFrame in App.tsx:
durationA - transitionDuration. -/
def transitionStartTime (s : EditorState) : ℚ := durationA s - transitionDuration s

/-- The branch condition of the transition case in the export drawFrame
(App.tsx line 823): currentExportTime >= transitionStartTime &&
currentExportTime < durationA && clipB (the preview drawFrame tests the same
condition, VideoPlayer.tsx line 220). -/
def inTransitionWindow (s : EditorState) (t : ℚ) : Prop :=
  transitionStartTime s ≤ t ∧ t < durationA s ∧ (clipB s).isSome

instance (s : EditorState) (t : ℚ) : Decidable (inTransitionWindow s t) := by
  unfold inTransitionWindow; infer_instance

/-- timeInB in the transition branch of the export drawFrame (App.tsx line
824): currentExportTime - transitionStartTime. -/
def exportTimeInB (s : EditorState) (t : ℚ) : ℚ := t - transitionStartTime s

/-- progress in the transition branch of the export drawFrame (App.tsx line
825): (currentExportTime - transitionStartTime) / transition.duration. -/
def exportProgress (s : EditorState) (t : ℚ) : ℚ :=
  (t - transitionStartTime s) / s.transition.duration

/-- transitionDuration as recomputed by the preview component from its props
(VideoPlayer.tsx line 119). -/
def previewTransitionDuration (cA cB : Option Clip) (tr : Transition) : ℚ :=
  if tr.type ≠ TransitionType.none ∧ cA.isSome ∧ cB.isSome then tr.duration else 0

/-- transitionStartTime in the preview component (VideoPlayer.tsx line 120). -/
def previewTransitionStartTime (cA cB : Option Clip) (tr : Transition) : ℚ :=
  getClipTrimmedDuration cA - previewTransitionDuration cA cB tr

/-- timeInB in the preview transition branch (VideoPlayer.tsx line 231). -/
def previewTimeInB (cA cB : Option Clip) (tr : Transition) (t : ℚ) : ℚ :=
  t - previewTransitionStartTime cA cB tr

/-- progress in the preview transition branch (VideoPlayer.tsx line 232):
(currentTime - transitionStartTime) / transition.duration. -/
def previewProgress (cA cB : Option Clip) (tr : Transition) (t : ℚ) : ℚ :=
  (t - previewTransitionStartTime cA cB tr) / tr.duration

/-! ## Local-to-source time (VideoPlayer.tsx lines 304-307, App.tsx line 941) -/

/-- seekTimeA / seekTimeB in updateVideoTimes (VideoPlayer.tsx):
clip.isReversed ? clip.trimEnd - local : clip.trimStart + local. -/
def seekTime (clip : Clip) (localTime : ℚ) : ℚ :=
  if clip.isReversed then clip.trimEnd - localTime else clip.trimStart + localTime

/-- timeToSeek in drawVideoToCanvas (App.tsx line 941):
clip.isReversed ? clip.trimEnd - time : clip.trimStart + time. -/
def timeToSeek (clip : Clip) (time : ℚ) : ℚ :=
  if clip.isReversed then clip.trimEnd - time else clip.trimStart + time

/-! ## Per-clip interpolation progress (VideoPlayer.tsx lines 168-170,
App.tsx lines 897-899) -/

/-- progress in the preview drawVideo: trimmedDuration > 0 ?
time / trimmedDuration : 0. -/
def previewClipProgress (clip : Clip) (time : ℚ) : ℚ :=
  let trimmedDuration := clip.trimEnd - clip.trimStart
  if trimmedDuration > 0 then time / trimmedDuration else 0

/-- progress in the export drawVideoToCanvas: trimmedDuration > 0 ?
time / trimmedDuration : 0 (textually the same computation as the preview). -/
def exportClipProgress (clip : Clip) (time : ℚ) : ℚ :=
  let trimmedDuration := clip.trimEnd - clip.trimStart
  if trimmedDuration > 0 then time / trimmedDuration else 0

/-- finalProgress in both renderers: clip.isReversed ? 1 - progress : progress. -/
def finalClipProgress (clip : Clip) (time : ℚ) : ℚ :=
  if clip.isReversed then 1 - previewClipProgress clip time else previewClipProgress clip time

/-! ## Editor-state constants and operations (App.tsx) -/

/-- DEFAULT_TRANSFORM from App.tsx. -/
def DEFAULT_TRANSFORM : Transform := { scale := 1, x := 0, y := 0 }

/-- DEFAULT_CHROMA_KEY from App.tsx. -/
def DEFAULT_CHROMA_KEY : ChromaKeySettings :=
  { enabled := false, color := "#00ff00", similarity := 15/100 }

/-- DEFAULT_COLOR_GRADING from App.tsx. -/
def DEFAULT_COLOR_GRADING : ColorGradingSettings :=
  { brightness := 100, saturation := 100, hue := 0 }

/-- INITIAL_EDITOR_STATE from App.tsx. -/
def INITIAL_EDITOR_STATE : EditorState :=
  { clips := []
    transition := { type := TransitionType.none, duration := 1 }
    textOverlays := []
    imageOverlays := []
    selectedFilter := { name := "None", value := "none" }
    selectedEffect := { name := "None", value := "none" }
    crop := { x := 0, y := 0, width := 100, height := 100 }
    volume := 1
    playbackSpeed := 1 }

/-- The clip built by handleAddClip in App.tsx once metadata is loaded:
INITIAL_CLIP_STATE spread with the file url, the probed duration and
trimEnd = duration (trimStart stays 0). -/
def freshClip (id url thumbnailUrl : String) (duration : ℚ) : Clip :=
  { id := id, url := url, thumbnailUrl := thumbnailUrl, duration := duration
    trimStart := 0, trimEnd := duration
    startTransform := DEFAULT_TRANSFORM, endTransform := DEFAULT_TRANSFORM
    chromaKey := DEFAULT_CHROMA_KEY, colorGrading := DEFAULT_COLOR_GRADING
    blur := 0, isReversed := false }

/-- The array write newClips[index] = newClip of handleAddClip.  Writing one
slot past the end of a JS array appends; the UI only offers slot B next to an
occupied slot A, so the sparse-array case does not arise and is modelled as
an append as well. -/
def jsArraySet (l : List Clip) (i : ℕ) (c : Clip) : List Clip :=
  if i < l.length then l.set i c else l ++ [c]

/-- handleAddClip from App.tsx (state part): replace or create the clip at
the given slot. -/
def handleAddClip (s : EditorState) (index : ℕ) (newClip : Clip) : EditorState :=
  { s with clips := jsArraySet s.clips index newClip }

/-- handleSetTransition from App.tsx lines 357-359: stores the new
transition unchanged. -/
def handleSetTransition (s : EditorState) (newTransition : Transition) : EditorState :=
  { s with transition := newTransition }

/-- handleDurationChange from TransitionControls.tsx: onTransitionChange
with the same type and the slider value as duration; App.tsx wires
onTransitionChange to handleSetTransition. -/
def handleDurationChange (s : EditorState) (value : ℚ) : EditorState :=
  handleSetTransition s { s.transition with duration := value }

/-- A fragment of the reachable editor states: initial state, adding a clip
from a file of positive duration (handleAddClip), and setting the transition
(handleSetTransition, also the path of handleDurationChange and
handleTypeChange in TransitionControls.tsx).  The remaining handlers are not
needed for the states considered here; adding them would only enlarge the
relation. -/
inductive Reachable : EditorState → Prop where
  | init : Reachable INITIAL_EDITOR_STATE
  | addClip (s : EditorState) (index : ℕ) (id url thumb : String) (d : ℚ) :
      Reachable s → index ≤ 1 → 0 < d →
      Reachable (handleAddClip s index (freshClip id url thumb d))
  | setTransition (s : EditorState) (tr : Transition) :
      Reachable s → Reachable (handleSetTransition s tr)

/-! ## Overlay animator (VideoPlayer.tsx lines 26-67) -/

/-- The transform record built by getOverlayRenderState
(translate x %, translate y %, scale). -/
structure OverlayTransform where
  x : ℚ
  y : ℚ
  scale : ℚ
deriving DecidableEq, Repr

/-- The return value of getOverlayRenderState. -/
structure OverlayRenderState where
  isVisible : Bool
  opacity : ℚ
  transform : OverlayTransform
deriving DecidableEq, Repr

/-- The fixed animation duration constant (0.5 s) of getOverlayRenderState. -/
def animationDuration : ℚ := 1/2

/-- getOverlayRenderState from VideoPlayer.tsx.  The source initializes
opacity = 1 and transform = {0, 0, 1}, then the animation-in block may
overwrite some of the fields, then the animation-out block may overwrite
them again; the kinds are mutually exclusive string comparisons, modelled
as a match. -/
def getOverlayRenderState (overlay : Overlay) (currentTime : ℚ) : OverlayRenderState :=
  if overlay.startTime ≤ currentTime ∧ currentTime ≤ overlay.endTime then
    let opacity : ℚ := 1
    let transform : OverlayTransform := { x := 0, y := 0, scale := 1 }
    let timeIn := currentTime - overlay.startTime
    let inState : ℚ × OverlayTransform :=
      if overlay.animationIn ≠ AnimationIn.none ∧ timeIn < animationDuration then
        let progress := timeIn / animationDuration
        match overlay.animationIn with
        | AnimationIn.none => (opacity, transform)
        | AnimationIn.fadeIn => (progress, transform)
        | AnimationIn.slideInLeft => (opacity, { transform with x := lerp (-100) 0 progress })
        | AnimationIn.slideInRight => (opacity, { transform with x := lerp 100 0 progress })
        | AnimationIn.slideInTop => (opacity, { transform with y := lerp (-100) 0 progress })
        | AnimationIn.slideInBottom => (opacity, { transform with y := lerp 100 0 progress })
        | AnimationIn.slideInCenter => (progress, { transform with scale := lerp 0 1 progress })
      else (opacity, transform)
    let timeUntilEnd := overlay.endTime - currentTime
    let outState : ℚ × OverlayTransform :=
      if overlay.animationOut ≠ AnimationOut.none ∧ timeUntilEnd < animationDuration then
        let progress := 1 - timeUntilEnd / animationDuration
        match overlay.animationOut with
        | AnimationOut.none => inState
        | AnimationOut.fadeOut => (1 - progress, inState.2)
        | AnimationOut.slideOutLeft => (inState.1, { inState.2 with x := lerp 0 (-100) progress })
        | AnimationOut.slideOutRight => (inState.1, { inState.2 with x := lerp 0 100 progress })
        | AnimationOut.slideOutTop => (inState.1, { inState.2 with y := lerp 0 (-100) progress })
        | AnimationOut.slideOutBottom => (inState.1, { inState.2 with y := lerp 0 100 progress })
        | AnimationOut.slideOutCenter => (1 - progress, { inState.2 with scale := lerp 1 0 progress })
      else inState
    { isVisible := true, opacity := outState.1, transform := outState.2 }
  else
    { isVisible := false, opacity := 0, transform := { x := 0, y := 0, scale := 1 } }

/-! ## Chroma key (VideoPlayer.tsx lines 366-376, App.tsx lines 623-645; the
two copies are textually identical).  The per-pixel loop receives the parsed
key color from hexToRgb; the square root forces the model into the reals. -/

/-- The threshold of applyChromaKey: settings.similarity * 255 * Math.sqrt(3). -/
noncomputable def chromaKeyThreshold (similarity : ℝ) : ℝ :=
  similarity * 255 * Real.sqrt 3

/-- The per-pixel Euclidean RGB distance of applyChromaKey:
Math.sqrt((r-kr)^2 + (g-kg)^2 + (b-kb)^2). -/
noncomputable def rgbDistance (r g b kr kg kb : ℝ) : ℝ :=
  Real.sqrt ((r - kr) ^ 2 + (g - kg) ^ 2 + (b - kb) ^ 2)

open Classical in
/-- The alpha channel written by applyChromaKey for one pixel: 0 when the
distance is strictly below the threshold, otherwise the incoming alpha is
left unchanged. -/
noncomputable def applyChromaKeyAlpha (r g b kr kg kb similarity alpha : ℝ) : ℝ :=
  if rgbDistance r g b kr kg kb < chromaKeyThreshold similarity then 0 else alpha

/-! ## Pixel-level frame model

A frame pixel is an opaque RGB triple of rationals; the canvas starts from
the ctx.fillRect black background of both drawFrame implementations, and
each drawImage call with ctx.globalAlpha = a source-overs its content.

Sampling of a decoded video frame through the pan/zoom rectangle, the chroma
key and the CSS filter chain is the same arithmetic in the preview drawVideo
and the export drawVideoToCanvas (same lerp/scale/pan formulas, same
applyChromaKey, same filter string); it is abstracted into the clipPixel
field of a RenderBackend, which returns the color and coverage alpha that
this shared computation produces for a clip at a local time and pixel.
Likewise overlayPixel abstracts the rasterization of one content of an overlay
(text glyphs or image bitmap) under an animation transform.  What the model
keeps concrete is everything in which the two drawFrame implementations can
differ: branch conditions, draw order, compositing alphas, clipping
rectangles, overlay selection/sorting, and the decode guards. -/

/-- An RGB pixel value. -/
abbrev Color := ℚ × ℚ × ℚ

/-- The black ctx.fillStyle background of both drawFrame implementations. -/
def blackColor : Color := (0, 0, 0)

/-- Source-over compositing of one channel at alpha a. -/
def compositeChannel (a src dst : ℚ) : ℚ := a * src + (1 - a) * dst

/-- Source-over compositing of a pixel at alpha a. -/
def compositePixel (a : ℚ) (src dst : Color) : Color :=
  (compositeChannel a src.1 dst.1,
   compositeChannel a src.2.1 dst.2.1,
   compositeChannel a src.2.2 dst.2.2)

/-- Abstract pixel producers shared by the two renderers, plus the asset
decode environment.  clipPixel: slot (false = video A, true = video B),
clip, local time, pixel → (color, coverage alpha).  overlayPixel: overlay,
animation transform, pixel → (color, coverage alpha).  imageDecodes models
whether an overlay image src loads (img.onload vs img.onerror); svgDecodes
models whether a custom SVG mask blob loads. -/
structure RenderBackend where
  clipPixel : Bool → Clip → ℚ → ℚ × ℚ → Color × ℚ
  overlayPixel : Overlay → OverlayTransform → ℚ × ℚ → Color × ℚ
  imageDecodes : String → Bool
  svgDecodes : String → Bool

/-- One drawVideo / drawVideoToCanvas call: composite the pixels of the clip over
dst with ctx.globalAlpha = opacity (multiplied by the source coverage
alpha, e.g. a chroma-keyed-out pixel has coverage 0). -/
def drawVideoPx (env : RenderBackend) (slot : Bool) (clip : Clip) (time opacity : ℚ)
    (px : ℚ × ℚ) (dst : Color) : Color :=
  let ca := env.clipPixel slot clip time px
  compositePixel (opacity * ca.2) ca.1 dst

/-- Membership in a ctx.rect clipping rectangle (x, y, w, h). -/
def inClipRect (rx ry rw rh : ℚ) (px : ℚ × ℚ) : Prop :=
  rx ≤ px.1 ∧ px.1 < rx + rw ∧ ry ≤ px.2 ∧ px.2 < ry + rh

instance (rx ry rw rh : ℚ) (px : ℚ × ℚ) : Decidable (inClipRect rx ry rw rh px) := by
  unfold inClipRect; infer_instance

/-- The video layers of the preview drawFrame (VideoPlayer.tsx lines
161-277): black background, then either the single active clip or the
transition composite. -/
def previewVideoStage (env : RenderBackend) (cA cB : Option Clip) (tr : Transition)
    (t w h : ℚ) (px : ℚ × ℚ) : Color :=
  let dst := blackColor
  let dA := getClipTrimmedDuration cA
  let tst := previewTransitionStartTime cA cB tr
  let isInTransition := tst ≤ t ∧ t < dA ∧ cB.isSome
  if ¬ isInTransition then
    match cA, cB with
    | some ca, cBo =>
        if t < dA then drawVideoPx env false ca t 1 px dst
        else
          match cBo with
          | some cb => if dA ≤ t then drawVideoPx env true cb (t - tst) 1 px dst else dst
          | none => dst
    | none, _ => dst
  else
    match cA, cB with
    | some ca, some cb =>
        let timeInB := t - tst
        let progress := (t - tst) / tr.duration
        match tr.type with
        | TransitionType.crossfade =>
            drawVideoPx env true cb timeInB progress px
              (drawVideoPx env false ca t (1 - progress) px dst)
        | TransitionType.wipeLeft =>
            let base := drawVideoPx env false ca t 1 px dst
            if inClipRect 0 0 (w * progress) h px then
              drawVideoPx env true cb timeInB 1 px base
            else base
        | TransitionType.wipeRight =>
            let base := drawVideoPx env false ca t 1 px dst
            if inClipRect (w * (1 - progress)) 0 (w * progress) h px then
              drawVideoPx env true cb timeInB 1 px base
            else base
        | TransitionType.wipeDown =>
            let base := drawVideoPx env false ca t 1 px dst
            if inClipRect 0 0 w (h * progress) px then
              drawVideoPx env true cb timeInB 1 px base
            else base
        | TransitionType.wipeUp =>
            let base := drawVideoPx env false ca t 1 px dst
            if inClipRect 0 (h * (1 - progress)) w (h * progress) px then
              drawVideoPx env true cb timeInB 1 px base
            else base
        | _ => drawVideoPx env false ca t 1 px dst
    | _, _ => dst

/-- The video layers of the export drawFrame (App.tsx lines 815-878).
handleExport returns before the frame loop when clip A is absent, so cA is
not optional here.  Without clip B every time branch draws clip A at full
opacity (the final fallback). -/
def exportVideoStage (env : RenderBackend) (cA : Clip) (cB : Option Clip) (tr : Transition)
    (t w h : ℚ) (px : ℚ × ℚ) : Color :=
  let dst := blackColor
  let dA := cA.trimEnd - cA.trimStart
  let td := if tr.type ≠ TransitionType.none ∧ cB.isSome then tr.duration else 0
  let tst := dA - td
  match cB with
  | some cb =>
      if t < tst then drawVideoPx env false cA t 1 px dst
      else if tst ≤ t ∧ t < dA then
        let timeInB := t - tst
        let progress := (t - tst) / tr.duration
        match tr.type with
        | TransitionType.crossfade =>
            drawVideoPx env false cA t (1 - progress) px
              (drawVideoPx env true cb timeInB 1 px dst)
        | TransitionType.wipeLeft =>
            let base := drawVideoPx env false cA t 1 px dst
            if inClipRect 0 0 (w * progress) h px then
              drawVideoPx env true cb timeInB 1 px base
            else base
        | TransitionType.wipeRight =>
            let base := drawVideoPx env false cA t 1 px dst
            if inClipRect (w * (1 - progress)) 0 (w * progress) h px then
              drawVideoPx env true cb timeInB 1 px base
            else base
        | TransitionType.wipeDown =>
            let base := drawVideoPx env false cA t 1 px dst
            if inClipRect 0 0 w (h * progress) px then
              drawVideoPx env true cb timeInB 1 px base
            else base
        | TransitionType.wipeUp =>
            let base := drawVideoPx env false cA t 1 px dst
            if inClipRect 0 (h * (1 - progress)) w (h * progress) px then
              drawVideoPx env true cb timeInB 1 px base
            else base
        | _ => drawVideoPx env false cA t 1 px dst
      else if dA ≤ t then drawVideoPx env true cb (t - tst) 1 px dst
      else drawVideoPx env false cA t 1 px dst
  | none => drawVideoPx env false cA t 1 px dst

/-! ## Overlay draw order and compositing -/

/-- The comparator of the preview overlay sort: (a, b) => a.zIndex - b.zIndex,
ascending and stable (JS Array.prototype.sort is stable). -/
def zIndexLe (a b : Overlay) : Prop := a.zIndex ≤ b.zIndex

instance : DecidableRel zIndexLe := fun a b => by unfold zIndexLe; infer_instance

instance : IsTotal Overlay zIndexLe := ⟨fun a b => Int.le_total a.zIndex b.zIndex⟩

instance : IsTrans Overlay zIndexLe := ⟨fun _ _ _ => Int.le_trans⟩

/-- overlaysToDraw in the preview drawFrame (VideoPlayer.tsx line 280):
[...imageOverlays, ...textOverlays].sort((a, b) => a.zIndex - b.zIndex);
modelled with a stable sort (insertionSort is stable, like JS sort). -/
def overlaysToDraw (imgs : List ImageOverlay) (texts : List TextOverlay) : List Overlay :=
  (imgs.map Overlay.image ++ texts.map Overlay.text).insertionSort zIndexLe

/-- The subsequence of overlaysToDraw actually composited by the preview
forEach (the loop body returns early when getOverlayRenderState reports the
overlay invisible at the current time). -/
def previewDrawnOverlays (imgs : List ImageOverlay) (texts : List TextOverlay) (t : ℚ) :
    List Overlay :=
  (overlaysToDraw imgs texts).filter fun o => (getOverlayRenderState o t).isVisible

/-- The sequence of overlays composited by the export drawFrame (App.tsx
lines 880-888): first the image overlays whose window contains the time, in
insertion order, then the text overlays likewise; no zIndex sort. -/
def exportDrawnOverlays (imgs : List ImageOverlay) (texts : List TextOverlay) (t : ℚ) :
    List Overlay :=
  (imgs.filter fun o => o.startTime ≤ t ∧ t ≤ o.endTime).map Overlay.image
    ++ (texts.filter fun o => o.startTime ≤ t ∧ t ≤ o.endTime).map Overlay.text

/-- One iteration of the preview overlay forEach (VideoPlayer.tsx lines
282-293): skip when invisible, set ctx.globalAlpha to the opacity of the animator state, then draw the overlay under the transform of that state.
drawImageOverlay additionally returns without drawing when the preloaded
image has not decoded. -/
def previewOverlayStep (env : RenderBackend) (t : ℚ) (px : ℚ × ℚ)
    (dst : Color) (o : Overlay) : Color :=
  let st := getOverlayRenderState o t
  if st.isVisible then
    match o with
    | Overlay.image io =>
        if env.imageDecodes io.src then
          let ca := env.overlayPixel o st.transform px
          compositePixel (st.opacity * ca.2) ca.1 dst
        else dst
    | Overlay.text _ =>
        let ca := env.overlayPixel o st.transform px
        compositePixel (st.opacity * ca.2) ca.1 dst
  else dst

/-- One export drawImageToCanvas call (App.tsx lines 768-806): a fresh
Image is loaded per frame; on error the promise resolves without drawing
(the overlay is skipped), otherwise the content is drawn with no animation
transform and no animator opacity. -/
def exportImageOverlayStep (env : RenderBackend) (px : ℚ × ℚ)
    (dst : Color) (o : ImageOverlay) : Color :=
  if env.imageDecodes o.src then
    let ca := env.overlayPixel (Overlay.image o) { x := 0, y := 0, scale := 1 } px
    compositePixel ca.2 ca.1 dst
  else dst

/-- One export drawTextToCanvas call (App.tsx lines 700-766): the text is
drawn with no animation transform and no animator opacity. -/
def exportTextOverlayStep (env : RenderBackend) (px : ℚ × ℚ)
    (dst : Color) (o : TextOverlay) : Color :=
  let ca := env.overlayPixel (Overlay.text o) { x := 0, y := 0, scale := 1 } px
  compositePixel ca.2 ca.1 dst

/-- One pixel of the frame produced by the preview drawFrame at time t. -/
def previewFrame (env : RenderBackend) (cA cB : Option Clip) (tr : Transition)
    (imgs : List ImageOverlay) (texts : List TextOverlay)
    (t w h : ℚ) (px : ℚ × ℚ) : Color :=
  (overlaysToDraw imgs texts).foldl (previewOverlayStep env t px)
    (previewVideoStage env cA cB tr t w h px)

/-- One pixel of the frame produced by the export drawFrame when
currentExportTime = t. -/
def exportFrame (env : RenderBackend) (cA : Clip) (cB : Option Clip) (tr : Transition)
    (imgs : List ImageOverlay) (texts : List TextOverlay)
    (t w h : ℚ) (px : ℚ × ℚ) : Color :=
  (texts.filter fun o => o.startTime ≤ t ∧ t ≤ o.endTime).foldl
    (exportTextOverlayStep env px)
    ((imgs.filter fun o => o.startTime ≤ t ∧ t ≤ o.endTime).foldl
      (exportImageOverlayStep env px)
      (exportVideoStage env cA cB tr t w h px))

/-! ## Export asset preloading (App.tsx lines 539-565) -/

/-- The custom-SVG mask content of one overlay, or null:
o.mask.shape === custom-svg ? o.mask.customSvg : null. -/
def overlayMaskSvg (o : Overlay) : Option String :=
  if o.mask.shape = MaskShape.customSvg then o.mask.customSvg else none

/-- uniqueSvgMasks in handleExport: the deduplicated non-null custom-SVG
contents over allOverlays = [...textOverlays, ...imageOverlays]. -/
def uniqueSvgMasks (texts : List TextOverlay) (imgs : List ImageOverlay) : List String :=
  ((texts.map Overlay.text ++ imgs.map Overlay.image).filterMap overlayMaskSvg).dedup

/-- Whether handleExport reaches recorder.start(): the preload Promise.all
over uniqueSvgMasks must succeed; a single mask load error aborts the export
(alert, setIsExporting(false), return) before any frame is produced.
Overlay images take no part in this preload. -/
def exportStarts (env : RenderBackend) (texts : List TextOverlay)
    (imgs : List ImageOverlay) : Bool :=
  (uniqueSvgMasks texts imgs).all env.svgDecodes

/-! ## Concrete instances used by the witnesses and counterexamples -/

/-- A 10 s clip used untrimmed (trimmed duration 10). -/
def exClipA : Clip := freshClip "clip-a" "url-a" "thumb-a" 10

/-- An 8 s clip used untrimmed (trimmed duration 8). -/
def exClipB : Clip := freshClip "clip-b" "url-b" "thumb-b" 8

/-- A 2 s crossfade. -/
def exCrossfade : Transition := { type := TransitionType.crossfade, duration := 2 }

/-- A 2 s wipe-left. -/
def exWipeLeft : Transition := { type := TransitionType.wipeLeft, duration := 2 }

/-- Editor snapshot with trimmed clips of 10 s and 8 s and a 2 s crossfade
(the example in the testable properties of the spec). -/
def exState1 : EditorState :=
  { INITIAL_EDITOR_STATE with
      clips := [exClipA, exClipB]
      transition := exCrossfade }

/-- A concrete render backend: video A renders solid red, video B solid
blue, every overlay renders solid white, all assets decode. -/
def envRB : RenderBackend :=
  { clipPixel := fun slot _ _ _ => if slot then ((0, 0, 1), 1) else ((1, 0, 0), 1)
    overlayPixel := fun _ _ _ => ((1, 1, 1), 1)
    imageDecodes := fun _ => true
    svgDecodes := fun _ => true }

/-- An empty mask (shape none). -/
def noMask : Mask := { shape := MaskShape.none, cornerRadius := 0, feather := 0, customSvg := none }

/-- A very short text overlay (0.6 s) with fade-in and fade-out, so that at
t = 0.3 both animation windows are active. -/
def c6Overlay : Overlay :=
  Overlay.text
    { id := "text-1", text := "Sample Text", startTime := 0, endTime := 3/5
      top := 50, left := 50, color := "#FFFFFF", fontSize := 48
      animationIn := AnimationIn.fadeIn, animationOut := AnimationOut.fadeOut
      zIndex := 1, mask := noMask }

/-- Image overlay with zIndex 2, inserted first. -/
def c2ovA : ImageOverlay :=
  { id := "image-1", src := "a.png", startTime := 0, endTime := 4
    width := 25, top := 50, left := 50
    animationIn := AnimationIn.none, animationOut := AnimationOut.none
    zIndex := 2, mask := noMask, chromaKey := DEFAULT_CHROMA_KEY }

/-- Image overlay with zIndex 1, inserted second, overlapping the first in
time. -/
def c2ovB : ImageOverlay :=
  { id := "image-2", src := "b.png", startTime := 0, endTime := 4
    width := 25, top := 50, left := 50
    animationIn := AnimationIn.none, animationOut := AnimationOut.none
    zIndex := 1, mask := noMask, chromaKey := DEFAULT_CHROMA_KEY }

/-- An image overlay whose bitmap fails to decode. -/
def c9Overlay : ImageOverlay :=
  { id := "image-9", src := "missing.png", startTime := 0, endTime := 4
    width := 25, top := 50, left := 50
    animationIn := AnimationIn.none, animationOut := AnimationOut.none
    zIndex := 1, mask := noMask, chromaKey := DEFAULT_CHROMA_KEY }

/-- Backend in which no overlay image decodes while every SVG mask does. -/
def env9 : RenderBackend :=
  { envRB with imageDecodes := fun _ => false }

/-- State with two 2-second clips, both untrimmed. -/
def c7StateClips : EditorState :=
  handleAddClip (handleAddClip INITIAL_EDITOR_STATE 0 (freshClip "clip-0" "url-0" "thumb-0" 2))
    1 (freshClip "clip-1" "url-1" "thumb-1" 2)

/-- The previous state after the transition-duration slider is moved to its
maximum 5 s with a crossfade selected (handleTypeChange then
handleDurationChange, both through handleSetTransition). -/
def c7State : EditorState :=
  handleDurationChange
    (handleSetTransition c7StateClips { type := TransitionType.crossfade, duration := 1 }) 5

/-- A reversed clip trimmed to the window [1, 4] of a 6 s source. -/
def c8Clip : Clip :=
  { freshClip "clip-rev" "url-rev" "thumb-rev" 6 with
      trimStart := 1, trimEnd := 4, isReversed := true }

/-- A clip whose probed duration is 0, so trimStart = trimEnd = 0 and the
trimmed duration is not strictly positive. -/
def c10Clip : Clip := freshClip "clip-zero" "url-zero" "thumb-zero" 0

/-- The wipe transition types, used to state for which transition kinds the
two renderers blend identically. -/
def isWipe : TransitionType → Prop
  | TransitionType.wipeLeft => True
  | TransitionType.wipeRight => True
  | TransitionType.wipeUp => True
  | TransitionType.wipeDown => True
  | _ => False

/-! ## Helper lemmas -/

/-- The isVisible flag of the overlay animator holds exactly when the
time window of the overlay contains the current time. -/
theorem isVisible_iff (o : Overlay) (t : ℚ) :
    (getOverlayRenderState o t).isVisible = true ↔ o.startTime ≤ t ∧ t ≤ o.endTime := by
  unfold getOverlayRenderState
  split_ifs with h
  · simpa using h
  · simpa using h

/-- In a list that is pairwise ordered by zIndex, an element with a strictly
smaller zIndex occurs before one with a strictly larger zIndex. -/
theorem zIndex_lt_pair_sublist {l : List Overlay} {o1 o2 : Overlay}
    (hl : l.Pairwise zIndexLe) (h1 : o1 ∈ l) (h2 : o2 ∈ l)
    (hz : o1.zIndex < o2.zIndex) : [o1, o2].Sublist l := by
  induction l with
  | nil => cases h1
  | cons x xs ih =>
    rcases List.pairwise_cons.mp hl with ⟨hx, hxs⟩
    rcases List.mem_cons.mp h1 with rfl | h1tl
    · rcases List.mem_cons.mp h2 with rfl | h2tl
      · exact absurd hz (lt_irrefl _)
      · exact (List.singleton_sublist.mpr h2tl).cons₂ o1
    · rcases List.mem_cons.mp h2 with rfl | h2tl
      · have hle : o2.zIndex ≤ o1.zIndex := hx o1 h1tl
        exact absurd hz (not_lt.mpr hle)
      · exact (ih hxs h1tl h2tl).cons x

/-! ## Claim theorems -/

/-- C3: the chroma-key stage zeroes the alpha of a pixel exactly when the
Euclidean RGB distance to the key color is strictly below
similarity * 255 * sqrt 3; a pixel equal to the key color is keyed out for
any positive similarity, and a pixel strictly beyond the threshold is never
keyed out. -/
theorem C3_chroma_key (r g b kr kg kb s a : ℝ) (ha : a ≠ 0) :
    (applyChromaKeyAlpha r g b kr kg kb s a = 0 ↔
      rgbDistance r g b kr kg kb < s * 255 * Real.sqrt 3)
    ∧ (r = kr → g = kg → b = kb → 0 < s → applyChromaKeyAlpha r g b kr kg kb s a = 0)
    ∧ (s * 255 * Real.sqrt 3 < rgbDistance r g b kr kg kb →
        applyChromaKeyAlpha r g b kr kg kb s a = a) := by
  refine ⟨?_, ?_, ?_⟩
  · unfold applyChromaKeyAlpha chromaKeyThreshold
    split_ifs with h
    · simpa using h
    · simpa [ha] using h
  · rintro rfl rfl rfl hs
    have hd : rgbDistance r g b r g b = 0 := by simp [rgbDistance]
    have hpos : (0 : ℝ) < chromaKeyThreshold s :=
      mul_pos (mul_pos hs (by norm_num)) (Real.sqrt_pos.mpr (by norm_num))
    unfold applyChromaKeyAlpha
    rw [if_pos (by rw [hd]; exact hpos)]
  · intro h
    unfold applyChromaKeyAlpha
    rw [if_neg (by unfold chromaKeyThreshold; exact not_lt.mpr (le_of_lt h))]

/-- Witness for C3 at the pixel (0,0,0) with key color (0,0,0),
similarity 1 and incoming alpha 255. -/
theorem C3_chroma_key_witness :
    (applyChromaKeyAlpha 0 0 0 0 0 0 1 255 = 0 ↔
      rgbDistance 0 0 0 0 0 0 < 1 * 255 * Real.sqrt 3)
    ∧ ((0 : ℝ) = 0 → (0 : ℝ) = 0 → (0 : ℝ) = 0 → (0 : ℝ) < 1 →
        applyChromaKeyAlpha 0 0 0 0 0 0 1 255 = 0)
    ∧ (1 * 255 * Real.sqrt 3 < rgbDistance 0 0 0 0 0 0 →
        applyChromaKeyAlpha 0 0 0 0 0 0 1 255 = 255) :=
  C3_chroma_key 0 0 0 0 0 0 1 255 (by norm_num)

/-- C4: totalDuration = max(0, dA + dB - transitionDuration), with
transitionDuration = transition.duration exactly when both clips exist and
the type is not none; for trimmed lengths 10 s and 8 s with a 2 s crossfade,
totalDuration = 16 and the transition window is [8, 10). -/
theorem C4_totalDuration (s : EditorState) (a b : Clip) (h : s.clips = [a, b]) :
    totalDuration s =
      max 0 ((a.trimEnd - a.trimStart) + (b.trimEnd - b.trimStart) -
        (if s.transition.type ≠ TransitionType.none then s.transition.duration else 0))
    ∧ (∀ s2 : EditorState, transitionDuration s2 =
        if (clipA s2).isSome ∧ (clipB s2).isSome ∧ s2.transition.type ≠ TransitionType.none
        then s2.transition.duration else 0)
    ∧ totalDuration exState1 = 16
    ∧ (∀ t : ℚ, inTransitionWindow exState1 t ↔ 8 ≤ t ∧ t < 10) := by
  refine ⟨?_, ?_, ?_, ?_⟩
  · simp [totalDuration, durationA, durationB, transitionDuration, clipA, clipB, h,
      getClipTrimmedDuration]
  · intro s2
    unfold transitionDuration
    split_ifs <;> tauto
  · norm_num +decide [totalDuration, exState1, durationA, durationB, transitionDuration,
      clipA, clipB, exClipA, exClipB, freshClip, getClipTrimmedDuration, exCrossfade,
      INITIAL_EDITOR_STATE]
  · intro t
    norm_num +decide [inTransitionWindow, transitionStartTime, exState1, durationA,
      transitionDuration, clipA, clipB, exClipA, exClipB, freshClip, getClipTrimmedDuration,
      exCrossfade, INITIAL_EDITOR_STATE]

/-- Witness for C4 at the 10 s / 8 s / 2 s crossfade snapshot. -/
theorem C4_totalDuration_witness :
    totalDuration exState1 =
      max 0 ((exClipA.trimEnd - exClipA.trimStart) + (exClipB.trimEnd - exClipB.trimStart) -
        (if exState1.transition.type ≠ TransitionType.none then exState1.transition.duration
         else 0))
    ∧ (∀ s2 : EditorState, transitionDuration s2 =
        if (clipA s2).isSome ∧ (clipB s2).isSome ∧ s2.transition.type ≠ TransitionType.none
        then s2.transition.duration else 0)
    ∧ totalDuration exState1 = 16
    ∧ (∀ t : ℚ, inTransitionWindow exState1 t ↔ 8 ≤ t ∧ t < 10) :=
  C4_totalDuration exState1 exClipA exClipB rfl

/-- C5: inside the transition window (both clips present, type not none,
dA - td ≤ t < dA) the blending progress equals
(t - (dA - td)) / td, lies in [0, 1], and the local time in clip B equals
t - (dA - td); the preview computes the same two quantities. -/
theorem C5_transition_progress (s : EditorState) (t : ℚ)
    (hA : (clipA s).isSome) (hB : (clipB s).isSome)
    (hty : s.transition.type ≠ TransitionType.none)
    (h1 : durationA s - transitionDuration s ≤ t) (h2 : t < durationA s) :
    exportProgress s t = (t - (durationA s - transitionDuration s)) / transitionDuration s
    ∧ 0 ≤ exportProgress s t ∧ exportProgress s t ≤ 1
    ∧ exportTimeInB s t = t - (durationA s - transitionDuration s)
    ∧ previewProgress (clipA s) (clipB s) s.transition t = exportProgress s t
    ∧ previewTimeInB (clipA s) (clipB s) s.transition t = exportTimeInB s t := by
  have htd : transitionDuration s = s.transition.duration := by
    unfold transitionDuration
    rw [if_pos ⟨hty, hA, hB⟩]
  have hpos : 0 < transitionDuration s := by linarith
  have hdur : 0 < s.transition.duration := htd ▸ hpos
  refine ⟨?_, ?_, ?_, rfl, rfl, rfl⟩
  · unfold exportProgress transitionStartTime
    rw [htd]
  · unfold exportProgress transitionStartTime
    have hnum : 0 ≤ t - (durationA s - transitionDuration s) := by linarith
    exact div_nonneg (by rw [htd] at hnum ⊢; linarith) (le_of_lt hdur)
  · unfold exportProgress transitionStartTime
    rw [div_le_one hdur]
    linarith

/-- Witness for C5 at t = 9 in the 10 s / 8 s / 2 s crossfade snapshot
(window [8, 10)); the progress there is 0.5. -/
theorem C5_transition_progress_witness :
    (exportProgress exState1 9 =
        (9 - (durationA exState1 - transitionDuration exState1)) / transitionDuration exState1
      ∧ 0 ≤ exportProgress exState1 9 ∧ exportProgress exState1 9 ≤ 1
      ∧ exportTimeInB exState1 9 = 9 - (durationA exState1 - transitionDuration exState1)
      ∧ previewProgress (clipA exState1) (clipB exState1) exState1.transition 9
          = exportProgress exState1 9
      ∧ previewTimeInB (clipA exState1) (clipB exState1) exState1.transition 9
          = exportTimeInB exState1 9)
    ∧ exportProgress exState1 9 = 1/2 :=
  ⟨C5_transition_progress exState1 9
      (by norm_num +decide [clipA, exState1, INITIAL_EDITOR_STATE])
      (by norm_num +decide [clipB, exState1, INITIAL_EDITOR_STATE])
      (by norm_num +decide [exState1, exCrossfade, INITIAL_EDITOR_STATE])
      (by norm_num +decide [durationA, transitionDuration, clipA, clipB, exState1, exClipA,
        exClipB, freshClip, getClipTrimmedDuration, exCrossfade, INITIAL_EDITOR_STATE])
      (by norm_num +decide [durationA, clipA, exState1, exClipA, exClipB, freshClip,
        getClipTrimmedDuration, INITIAL_EDITOR_STATE]),
    by norm_num +decide [exportProgress, transitionStartTime, durationA, transitionDuration,
      clipA, clipB, exState1, exClipA, exClipB, freshClip, getClipTrimmedDuration,
      exCrossfade, INITIAL_EDITOR_STATE]⟩

/-- C8: both renderers map a clip-local time to a source time via
isReversed ? trimEnd - local : trimStart + local; for a reversed clip the
source time at local 0 is trimEnd and at local trimmedDuration it is
trimStart. -/
theorem C8_local_to_source (c : Clip) (hrev : c.isReversed = true) :
    (∀ c2 : Clip, ∀ l : ℚ,
        timeToSeek c2 l = (if c2.isReversed then c2.trimEnd - l else c2.trimStart + l)
        ∧ seekTime c2 l = timeToSeek c2 l)
    ∧ timeToSeek c 0 = c.trimEnd
    ∧ timeToSeek c (c.trimEnd - c.trimStart) = c.trimStart := by
  refine ⟨fun c2 l => ⟨rfl, rfl⟩, ?_, ?_⟩
  · unfold timeToSeek
    rw [if_pos hrev]
    ring
  · unfold timeToSeek
    rw [if_pos hrev]
    ring

/-- Witness for C8 on a reversed clip trimmed to [1, 4]. -/
theorem C8_local_to_source_witness :
    (∀ c2 : Clip, ∀ l : ℚ,
        timeToSeek c2 l = (if c2.isReversed then c2.trimEnd - l else c2.trimStart + l)
        ∧ seekTime c2 l = timeToSeek c2 l)
    ∧ timeToSeek c8Clip 0 = c8Clip.trimEnd
    ∧ timeToSeek c8Clip (c8Clip.trimEnd - c8Clip.trimStart) = c8Clip.trimStart :=
  C8_local_to_source c8Clip rfl

/-- C10: when the trimmed duration is not strictly positive, both renderers
take the interpolation progress to be 0 instead of dividing by it, so the
per-clip transform interpolation is total. -/
theorem C10_zero_trim_progress (clip : Clip) (time : ℚ)
    (h : clip.trimEnd - clip.trimStart ≤ 0) :
    previewClipProgress clip time = 0 ∧ exportClipProgress clip time = 0 := by
  have h2 : ¬ (clip.trimEnd - clip.trimStart > 0) := not_lt.mpr h
  constructor <;> simp [previewClipProgress, exportClipProgress, h2]

/-- Witness for C10 on a clip with trimStart = trimEnd = 0, rendered at
time 5. -/
theorem C10_zero_trim_progress_witness :
    previewClipProgress c10Clip 5 = 0 ∧ exportClipProgress c10Clip 5 = 0 :=
  C10_zero_trim_progress c10Clip 5 (by norm_num [c10Clip, freshClip])

/-- C6 counterexample: for the 0.6 s overlay with fade-in and fade-out at
t = 0.3, both animation windows are active; the in-animation opacity is 0.6
and the out-animation opacity is 0.6, so a multiplicative combination would
give 0.36, but getOverlayRenderState returns 0.6: the out value overwrites
the in value instead of multiplying with it. -/
theorem C6_counterexample :
    (getOverlayRenderState c6Overlay (3/10)).opacity = 3/5
    ∧ (getOverlayRenderState c6Overlay (3/10)).opacity ≠ (3/5) * (3/5) := by
  have h : (getOverlayRenderState c6Overlay (3/10)).opacity = 3/5 := by
    norm_num +decide [getOverlayRenderState, c6Overlay, Overlay.startTime, Overlay.endTime,
      Overlay.animationIn, Overlay.animationOut, animationDuration, lerp]
  refine ⟨h, ?_⟩
  rw [h]
  norm_num

/-- C6 amended: when both animation windows contain t, the out-animation
values are computed after the in-animation values and the out opacity
replaces the in opacity (for fade-in/fade-out the result is
(endTime - t) / animationDuration, independent of the in value); the two
opacities are not multiplied. -/
theorem C6_out_overwrites_in (o : Overlay) (t : ℚ)
    (hin : o.animationIn = AnimationIn.fadeIn)
    (hout : o.animationOut = AnimationOut.fadeOut)
    (h1 : o.startTime ≤ t) (h2 : t ≤ o.endTime)
    (_hwin : t - o.startTime < animationDuration)
    (h4 : o.endTime - t < animationDuration) :
    (getOverlayRenderState o t).opacity = (o.endTime - t) / animationDuration := by
  simp only [getOverlayRenderState, hin, hout, if_pos (And.intro h1 h2)]
  rw [if_pos ⟨by decide, h4⟩]
  ring

/-- Witness for C6 amended at the 0.6 s fade-in/fade-out overlay, t = 0.3. -/
theorem C6_out_overwrites_in_witness :
    (getOverlayRenderState c6Overlay (3/10)).opacity
      = (c6Overlay.endTime - 3/10) / animationDuration :=
  C6_out_overwrites_in c6Overlay (3/10) rfl rfl
    (by norm_num [c6Overlay, Overlay.startTime])
    (by norm_num [c6Overlay, Overlay.endTime])
    (by norm_num [c6Overlay, Overlay.startTime, animationDuration])
    (by norm_num [c6Overlay, Overlay.endTime, animationDuration])

/-- C7 counterexample: a reachable state (two untrimmed 2 s clips, then a
crossfade selected and the duration slider moved to 5 s) in which the
transition duration strictly exceeds both adjacent trimmed durations; no
operation clamps it. -/
theorem C7_counterexample :
    Reachable c7State
    ∧ (clipA c7State).isSome
    ∧ (clipB c7State).isSome
    ∧ c7State.transition.type ≠ TransitionType.none
    ∧ getClipTrimmedDuration (clipA c7State) < c7State.transition.duration
    ∧ getClipTrimmedDuration (clipB c7State) < c7State.transition.duration := by
  refine ⟨?_, ?_, ?_, ?_, ?_, ?_⟩
  · exact Reachable.setTransition _ _ (Reachable.setTransition _ _
      (Reachable.addClip _ 1 "clip-1" "url-1" "thumb-1" 2
        (Reachable.addClip _ 0 "clip-0" "url-0" "thumb-0" 2 Reachable.init
          (by norm_num) (by norm_num))
        (by norm_num) (by norm_num)))
  · norm_num +decide [clipA, c7State, c7StateClips, handleDurationChange, handleSetTransition,
      handleAddClip, jsArraySet, INITIAL_EDITOR_STATE]
  · norm_num +decide [clipB, c7State, c7StateClips, handleDurationChange, handleSetTransition,
      handleAddClip, jsArraySet, INITIAL_EDITOR_STATE]
  · norm_num +decide [c7State, c7StateClips, handleDurationChange, handleSetTransition]
  · norm_num +decide [clipA, c7State, c7StateClips, handleDurationChange, handleSetTransition,
      handleAddClip, jsArraySet, freshClip, getClipTrimmedDuration, INITIAL_EDITOR_STATE]
  · norm_num +decide [clipB, c7State, c7StateClips, handleDurationChange, handleSetTransition,
      handleAddClip, jsArraySet, freshClip, getClipTrimmedDuration, INITIAL_EDITOR_STATE]

/-- C7 amended: the operations that change the transition store it
unclamped — handleSetTransition keeps the given record verbatim and
handleDurationChange keeps the given duration verbatim (the UI slider only
bounds the value to [0.1, 5]) — so the invariant
duration ≤ trimmed durations is not maintained by the code. -/
theorem C7_no_clamping (s : EditorState) (tr : Transition) (v : ℚ) :
    (handleSetTransition s tr).transition = tr
    ∧ (handleSetTransition s tr).clips = s.clips
    ∧ (handleDurationChange s v).transition.duration = v
    ∧ (handleDurationChange s v).transition.type = s.transition.type
    ∧ (handleDurationChange s v).clips = s.clips :=
  ⟨rfl, rfl, rfl, rfl, rfl⟩

/-- C2 counterexample: two overlapping image overlays, the zIndex-2 one
inserted first.  At t = 1 both are visible; the preview composites them in
ascending zIndex order, but the export drawFrame composites image overlays
in insertion order with no zIndex sort, so the zIndex-2 overlay is drawn
before (below) the zIndex-1 overlay — refuting the claim for the export
renderer. -/
theorem C2_counterexample :
    c2ovA.zIndex = 2 ∧ c2ovB.zIndex = 1
    ∧ (c2ovA.startTime ≤ 1 ∧ (1 : ℚ) ≤ c2ovA.endTime)
    ∧ (c2ovB.startTime ≤ 1 ∧ (1 : ℚ) ≤ c2ovB.endTime)
    ∧ exportDrawnOverlays [c2ovA, c2ovB] [] 1
        = [Overlay.image c2ovA, Overlay.image c2ovB]
    ∧ previewDrawnOverlays [c2ovA, c2ovB] [] 1
        = [Overlay.image c2ovB, Overlay.image c2ovA] := by
  refine ⟨rfl, rfl, ⟨by norm_num [c2ovA], by norm_num [c2ovA]⟩,
    ⟨by norm_num [c2ovB], by norm_num [c2ovB]⟩, ?_, ?_⟩
  · norm_num +decide [exportDrawnOverlays, c2ovA, c2ovB, List.filter]
  · norm_num +decide [previewDrawnOverlays, overlaysToDraw, List.insertionSort,
      List.orderedInsert, c2ovA, c2ovB, zIndexLe, Overlay.zIndex, getOverlayRenderState,
      Overlay.startTime, Overlay.endTime, Overlay.animationIn, Overlay.animationOut,
      List.filter, animationDuration]

/-- C2 amended (preview renderer only): the preview composites exactly the
overlays whose [startTime, endTime] window contains t, in ascending zIndex
order, stably on ties with respect to the concatenated
image-overlays-then-text-overlays insertion order; in particular an overlay
with smaller zIndex is drawn before one with larger zIndex whenever both are
visible.  The export renderer instead draws visible image overlays then
visible text overlays in insertion order, ignoring zIndex
(see the counterexample). -/
theorem C2_preview_z_order (imgs : List ImageOverlay) (texts : List TextOverlay) (t : ℚ)
    (o1 o2 : Overlay)
    (h1 : o1 ∈ previewDrawnOverlays imgs texts t)
    (h2 : o2 ∈ previewDrawnOverlays imgs texts t)
    (hz : o1.zIndex < o2.zIndex) :
    (∀ o : Overlay, o ∈ previewDrawnOverlays imgs texts t ↔
        o ∈ imgs.map Overlay.image ++ texts.map Overlay.text
          ∧ o.startTime ≤ t ∧ t ≤ o.endTime)
    ∧ (previewDrawnOverlays imgs texts t).Pairwise zIndexLe
    ∧ (∀ p q : Overlay,
        [p, q].Sublist (imgs.map Overlay.image ++ texts.map Overlay.text) →
        zIndexLe p q →
        (getOverlayRenderState p t).isVisible = true →
        (getOverlayRenderState q t).isVisible = true →
        [p, q].Sublist (previewDrawnOverlays imgs texts t))
    ∧ [o1, o2].Sublist (previewDrawnOverlays imgs texts t) := by
  have hsorted : (previewDrawnOverlays imgs texts t).Pairwise zIndexLe :=
    List.Pairwise.sublist (List.filter_sublist _)
      (List.sorted_insertionSort zIndexLe (imgs.map Overlay.image ++ texts.map Overlay.text))
  refine ⟨?_, hsorted, ?_, ?_⟩
  · intro o
    unfold previewDrawnOverlays overlaysToDraw
    rw [List.mem_filter, List.mem_insertionSort, isVisible_iff]
  · intro p q hsub hpq hvp hvq
    have hs : [p, q].Sublist (overlaysToDraw imgs texts) :=
      List.pair_sublist_insertionSort hpq hsub
    have hf := hs.filter fun o => (getOverlayRenderState o t).isVisible
    rwa [show List.filter (fun o => (getOverlayRenderState o t).isVisible) [p, q] = [p, q]
      by simp [List.filter, hvp, hvq]] at hf
  · exact zIndex_lt_pair_sublist hsorted h1 h2 hz

/-- Witness for C2 amended: in the preview at t = 1 the zIndex-1 overlay is
drawn before the zIndex-2 overlay. -/
theorem C2_preview_z_order_witness :
    (∀ o : Overlay, o ∈ previewDrawnOverlays [c2ovA, c2ovB] [] 1 ↔
        o ∈ ([c2ovA, c2ovB].map Overlay.image ++ ([] : List TextOverlay).map Overlay.text)
          ∧ o.startTime ≤ 1 ∧ 1 ≤ o.endTime)
    ∧ (previewDrawnOverlays [c2ovA, c2ovB] [] 1).Pairwise zIndexLe
    ∧ (∀ p q : Overlay,
        [p, q].Sublist ([c2ovA, c2ovB].map Overlay.image
          ++ ([] : List TextOverlay).map Overlay.text) →
        zIndexLe p q →
        (getOverlayRenderState p 1).isVisible = true →
        (getOverlayRenderState q 1).isVisible = true →
        [p, q].Sublist (previewDrawnOverlays [c2ovA, c2ovB] [] 1))
    ∧ [Overlay.image c2ovB, Overlay.image c2ovA].Sublist
        (previewDrawnOverlays [c2ovA, c2ovB] [] 1) := by
  have hlist : previewDrawnOverlays [c2ovA, c2ovB] [] 1
      = [Overlay.image c2ovB, Overlay.image c2ovA] := by
    norm_num +decide [previewDrawnOverlays, overlaysToDraw, List.insertionSort,
      List.orderedInsert, c2ovA, c2ovB, zIndexLe, Overlay.zIndex, getOverlayRenderState,
      Overlay.startTime, Overlay.endTime, Overlay.animationIn, Overlay.animationOut,
      List.filter, animationDuration]
  exact C2_preview_z_order [c2ovA, c2ovB] [] 1 (Overlay.image c2ovB) (Overlay.image c2ovA)
    (by rw [hlist]; simp)
    (by rw [hlist]; simp)
    (by norm_num [Overlay.zIndex, c2ovA, c2ovB])

/-- C9 counterexample: with an image overlay whose bitmap fails to decode
(and no SVG masks), the export still starts — the SVG preload succeeds
vacuously, so frames are produced — and the frame inside the overlay time
window equals the frame rendered without the overlay: the overlay is
silently omitted, and no failure is surfaced at export start. -/
theorem C9_counterexample :
    env9.imageDecodes c9Overlay.src = false
    ∧ exportStarts env9 [] [c9Overlay] = true
    ∧ c9Overlay.startTime ≤ 1 ∧ (1 : ℚ) ≤ c9Overlay.endTime
    ∧ exportFrame env9 exClipA none exCrossfade [c9Overlay] [] 1 100 100 (0, 0)
        = exportFrame env9 exClipA none exCrossfade [] [] 1 100 100 (0, 0) := by
  refine ⟨rfl, ?_, by norm_num [c9Overlay], by norm_num [c9Overlay], ?_⟩
  · norm_num +decide [exportStarts, env9, envRB, uniqueSvgMasks, c9Overlay, overlayMaskSvg,
      noMask, List.filterMap, List.dedup, List.all]
  · norm_num +decide [exportFrame, exportVideoStage, exCrossfade, exClipA, freshClip,
      drawVideoPx, env9, envRB, compositePixel, compositeChannel, blackColor, c9Overlay,
      List.filter, exportImageOverlayStep]

/-- C9 amended: only custom SVG mask assets are preloaded — one of them
failing to decode makes handleExport abort before any frame is produced —
whereas an overlay image that fails to decode does not fail the export: the
frame loop proceeds and drawImageToCanvas resolves without drawing, so the
overlay is silently omitted from every frame. -/
theorem C9_asset_failures (env : RenderBackend) (texts : List TextOverlay)
    (imgs pre post : List ImageOverlay) (o : ImageOverlay)
    (cA : Clip) (cB : Option Clip) (tr : Transition) (t w h : ℚ) (px : ℚ × ℚ)
    (hdecode : env.imageDecodes o.src = false) :
    ((∃ svg ∈ uniqueSvgMasks texts imgs, env.svgDecodes svg = false) →
      exportStarts env texts imgs = false)
    ∧ exportFrame env cA cB tr (pre ++ o :: post) texts t w h px
        = exportFrame env cA cB tr (pre ++ post) texts t w h px := by
  constructor
  · rintro ⟨svg, hmem, hfail⟩
    simp only [exportStarts, List.all_eq_false]
    exact ⟨svg, hmem, by simp [hfail]⟩
  · have hstep : ∀ dst : Color, exportImageOverlayStep env px dst o = dst := by
      intro dst
      simp [exportImageOverlayStep, hdecode]
    unfold exportFrame
    congr 1
    by_cases hp : o.startTime ≤ t ∧ t ≤ o.endTime
    · simp [List.filter_append, List.filter_cons, hp, List.foldl_append, hstep]
    · simp [List.filter_append, List.filter_cons, hp]

/-- Witness for C9 amended with the failing image overlay alone on the
timeline. -/
theorem C9_asset_failures_witness :
    ((∃ svg ∈ uniqueSvgMasks [] [c9Overlay], env9.svgDecodes svg = false) →
      exportStarts env9 [] [c9Overlay] = false)
    ∧ exportFrame env9 exClipA none exCrossfade ([] ++ c9Overlay :: []) [] 1 100 100 (0, 0)
        = exportFrame env9 exClipA none exCrossfade ([] ++ []) [] 1 100 100 (0, 0) :=
  C9_asset_failures env9 [] [c9Overlay] [] [] c9Overlay exClipA none exCrossfade
    1 100 100 (0, 0) rfl

/-! ## C1: preview vs export frame agreement -/

/-- With no clip B, the preview draws clip A alone for t below its trimmed
duration, like every export branch does. -/
theorem stage_eq_no_clipB (env : RenderBackend) (cA : Clip) (tr : Transition)
    (t w h : ℚ) (px : ℚ × ℚ) (hc : t < cA.trimEnd - cA.trimStart) :
    previewVideoStage env (some cA) none tr t w h px
      = exportVideoStage env cA none tr t w h px := by
  simp [previewVideoStage, exportVideoStage, previewTransitionStartTime,
    previewTransitionDuration, getClipTrimmedDuration, hc]

/-- Before the transition start both renderers draw clip A at full opacity. -/
theorem stage_eq_A_region (env : RenderBackend) (cA cb : Clip) (tr : Transition)
    (t w h : ℚ) (px : ℚ × ℚ) (htd : 0 ≤ tr.duration)
    (hc : t < previewTransitionStartTime (some cA) (some cb) tr) :
    previewVideoStage env (some cA) (some cb) tr t w h px
      = exportVideoStage env cA (some cb) tr t w h px := by
  have htd0 : 0 ≤ previewTransitionDuration (some cA) (some cb) tr := by
    unfold previewTransitionDuration
    split_ifs
    · exact htd
    · exact le_refl 0
  have htst : previewTransitionStartTime (some cA) (some cb) tr
      = cA.trimEnd - cA.trimStart - previewTransitionDuration (some cA) (some cb) tr := by
    simp [previewTransitionStartTime, getClipTrimmedDuration]
  have hdA : t < cA.trimEnd - cA.trimStart := by
    have h2 := hc
    rw [htst] at h2
    linarith
  have hptd : (if ¬tr.type = TransitionType.none then tr.duration else 0)
      = previewTransitionDuration (some cA) (some cb) tr := by
    simp [previewTransitionDuration]
  simp only [previewVideoStage, exportVideoStage, getClipTrimmedDuration,
    Option.isSome_some, and_true, true_and, ne_eq]
  rw [hptd, ← htst]
  rw [if_pos (show ¬(previewTransitionStartTime (some cA) (some cb) tr ≤ t
      ∧ t < cA.trimEnd - cA.trimStart) from fun hcon => absurd hcon.1 (not_le.mpr hc))]
  rw [if_pos hdA, if_pos hc]

/-- After clip A ends both renderers draw clip B alone at the same local
time. -/
theorem stage_eq_B_region (env : RenderBackend) (cA cb : Clip) (tr : Transition)
    (t w h : ℚ) (px : ℚ × ℚ) (htd : 0 ≤ tr.duration)
    (hc : cA.trimEnd - cA.trimStart ≤ t) :
    previewVideoStage env (some cA) (some cb) tr t w h px
      = exportVideoStage env cA (some cb) tr t w h px := by
  have htd0 : 0 ≤ previewTransitionDuration (some cA) (some cb) tr := by
    unfold previewTransitionDuration
    split_ifs
    · exact htd
    · exact le_refl 0
  have htst : previewTransitionStartTime (some cA) (some cb) tr
      = cA.trimEnd - cA.trimStart - previewTransitionDuration (some cA) (some cb) tr := by
    simp [previewTransitionStartTime, getClipTrimmedDuration]
  have hptd : (if ¬tr.type = TransitionType.none then tr.duration else 0)
      = previewTransitionDuration (some cA) (some cb) tr := by
    simp [previewTransitionDuration]
  simp only [previewVideoStage, exportVideoStage, getClipTrimmedDuration,
    Option.isSome_some, and_true, true_and, ne_eq]
  rw [hptd, ← htst]
  rw [if_pos (show ¬(previewTransitionStartTime (some cA) (some cb) tr ≤ t
      ∧ t < cA.trimEnd - cA.trimStart) from fun hcon => absurd hcon.2 (not_lt.mpr hc))]
  rw [if_neg (not_lt.mpr hc), if_pos hc]
  rw [if_neg (show ¬ t < previewTransitionStartTime (some cA) (some cb) tr from
    not_lt.mpr (by rw [htst]; linarith))]
  rw [if_neg (show ¬(previewTransitionStartTime (some cA) (some cb) tr ≤ t
      ∧ t < cA.trimEnd - cA.trimStart) from fun hcon => absurd hcon.2 (not_lt.mpr hc))]
  rw [if_pos hc]

/-- Inside the transition window with a wipe transition, both renderers draw
clip A in full, clip B clipped to the same rectangle, both with the same
progress: the two blends coincide.  (For a crossfade they do not — see the
C1 counterexample.) -/
theorem stage_eq_wipe_window (env : RenderBackend) (cA cb : Clip) (tr : Transition)
    (t w h : ℚ) (px : ℚ × ℚ)
    (hc1 : previewTransitionStartTime (some cA) (some cb) tr ≤ t)
    (hc2 : t < cA.trimEnd - cA.trimStart)
    (hw : isWipe tr.type) :
    previewVideoStage env (some cA) (some cb) tr t w h px
      = exportVideoStage env cA (some cb) tr t w h px := by
  have htst : previewTransitionStartTime (some cA) (some cb) tr
      = cA.trimEnd - cA.trimStart - previewTransitionDuration (some cA) (some cb) tr := by
    simp [previewTransitionStartTime, getClipTrimmedDuration]
  have hptd : (if ¬tr.type = TransitionType.none then tr.duration else 0)
      = previewTransitionDuration (some cA) (some cb) tr := by
    simp [previewTransitionDuration]
  simp only [previewVideoStage, exportVideoStage, getClipTrimmedDuration,
    Option.isSome_some, and_true, true_and, ne_eq]
  rw [hptd, ← htst]
  rw [if_neg (show ¬¬(previewTransitionStartTime (some cA) (some cb) tr ≤ t
      ∧ t < cA.trimEnd - cA.trimStart) from not_not_intro ⟨hc1, hc2⟩)]
  rw [if_neg (show ¬ t < previewTransitionStartTime (some cA) (some cb) tr from
    not_lt.mpr hc1)]
  rw [if_pos (show previewTransitionStartTime (some cA) (some cb) tr ≤ t
      ∧ t < cA.trimEnd - cA.trimStart from ⟨hc1, hc2⟩)]
  cases htype : tr.type with
  | none => simp [htype, isWipe] at hw
  | crossfade => simp [htype, isWipe] at hw
  | wipeLeft => rfl
  | wipeRight => rfl
  | wipeUp => rfl
  | wipeDown => rfl

/-- C1 counterexample: with identical per-clip pixel renderers (clip A solid
red, clip B solid blue), a 2 s crossfade at t = 9 (progress 0.5) yields
(1/4, 0, 1/2) in the preview — clip A at alpha 0.5 over black, then clip B
at alpha 0.5 — but (1/2, 0, 1/2) in the export — clip B opaque, then clip A
at alpha 0.5 — so the frames are not bit-reproducible across the two
renderers. -/
theorem C1_counterexample :
    previewFrame envRB (some exClipA) (some exClipB) exCrossfade [] [] 9 100 100 (0, 0)
        = (1/4, 0, 1/2)
    ∧ exportFrame envRB exClipA (some exClipB) exCrossfade [] [] 9 100 100 (0, 0)
        = (1/2, 0, 1/2)
    ∧ previewFrame envRB (some exClipA) (some exClipB) exCrossfade [] [] 9 100 100 (0, 0)
        ≠ exportFrame envRB exClipA (some exClipB) exCrossfade [] [] 9 100 100 (0, 0) := by
  have h1 : previewFrame envRB (some exClipA) (some exClipB) exCrossfade [] [] 9 100 100 (0, 0)
      = (1/4, 0, 1/2) := by
    norm_num +decide [previewFrame, previewVideoStage, exCrossfade, exClipA, exClipB,
      freshClip, drawVideoPx, envRB, compositePixel, compositeChannel, blackColor,
      overlaysToDraw, previewTransitionStartTime, previewTransitionDuration,
      getClipTrimmedDuration, List.insertionSort, Prod.ext_iff]
  have h2 : exportFrame envRB exClipA (some exClipB) exCrossfade [] [] 9 100 100 (0, 0)
      = (1/2, 0, 1/2) := by
    norm_num +decide [exportFrame, exportVideoStage, exCrossfade, exClipA, exClipB,
      freshClip, drawVideoPx, envRB, compositePixel, compositeChannel, blackColor,
      Prod.ext_iff]
  refine ⟨h1, h2, ?_⟩
  rw [h1, h2]
  norm_num [Prod.ext_iff]

/-- C1 amended: given the shared per-clip pixel renderer (the sampling and
filter arithmetic is textually identical in the two implementations) and
equal canvas dimensions (the export canvas equals the preview canvas when
the crop is the full frame), the two drawFrame implementations produce the
same pixels at every time in the A-only region, in the transition window
for the four wipe transitions, and in the B-only region with clip B
present, provided no overlay is on the timeline.  They differ for a
crossfade inside the window (see the counterexample), in the fallback at
t ≥ durationA without clip B (the export keeps drawing clip A, the preview
draws black), and whenever overlays are drawn (the export ignores z-order
and animation state). -/
theorem C1_preview_export (env : RenderBackend) (cA : Clip) (cB : Option Clip)
    (tr : Transition) (t w h : ℚ) (px : ℚ × ℚ)
    (htd : 0 ≤ tr.duration)
    (hcase :
      t < previewTransitionStartTime (some cA) cB tr
      ∨ (previewTransitionStartTime (some cA) cB tr ≤ t ∧ t < cA.trimEnd - cA.trimStart
          ∧ cB.isSome ∧ isWipe tr.type)
      ∨ (cA.trimEnd - cA.trimStart ≤ t ∧ cB.isSome)) :
    previewFrame env (some cA) cB tr [] [] t w h px
      = exportFrame env cA cB tr [] [] t w h px := by
  have hstage : previewVideoStage env (some cA) cB tr t w h px
      = exportVideoStage env cA cB tr t w h px := by
    cases cB with
    | none =>
        rcases hcase with hc | hc | hc
        · have htst : previewTransitionStartTime (some cA) none tr
              = cA.trimEnd - cA.trimStart := by
            simp [previewTransitionStartTime, previewTransitionDuration,
              getClipTrimmedDuration]
          rw [htst] at hc
          exact stage_eq_no_clipB env cA tr t w h px hc
        · simp at hc
        · simp at hc
    | some cb =>
        rcases hcase with hc | hc | hc
        · exact stage_eq_A_region env cA cb tr t w h px htd hc
        · exact stage_eq_wipe_window env cA cb tr t w h px hc.1 hc.2.1 hc.2.2.2
        · exact stage_eq_B_region env cA cb tr t w h px htd hc.1
  simp only [previewFrame, exportFrame, overlaysToDraw, List.map_nil, List.append_nil,
    List.nil_append, List.filter_nil, List.foldl_nil, List.insertionSort]
  exact hstage

/-- Witness for C1 amended: a 2 s wipe-left at t = 9 renders identically in
preview and export. -/
theorem C1_preview_export_witness :
    previewFrame envRB (some exClipA) (some exClipB) exWipeLeft [] [] 9 100 100 (0, 0)
      = exportFrame envRB exClipA (some exClipB) exWipeLeft [] [] 9 100 100 (0, 0) :=
  C1_preview_export envRB exClipA (some exClipB) exWipeLeft 9 100 100 (0, 0)
    (by norm_num [exWipeLeft])
    (Or.inr (Or.inl ⟨by norm_num +decide [previewTransitionStartTime,
        previewTransitionDuration, getClipTrimmedDuration, exClipA, exClipB, freshClip,
        exWipeLeft],
      by norm_num [exClipA, freshClip], rfl, trivial⟩))

end VideoApp
